import Mathlib

/-!
Verification of the order-lifecycle, review-aggregation and auth core of the
next-ecommerce repository, via a shallow embedding of its Mongoose schemas,
their save middleware and validators, and the login server action.

Monetary amounts are modelled in minor currency units as integers (the claims
only add, subtract and compare them), object ids as naturals, dates as
natural-number timestamps.  Rating averages, which genuinely divide, are
modelled as rationals.  A document save is modelled as: apply the schema's
pre-save middleware to the document, then enforce the schema's validators;
the document is persisted exactly when validation succeeds.
-/

namespace ECommerce

/-! ## Order data model (order schema file) -/

inductive OrderStatus
  | pending | processing | shipped | delivered | cancelled
deriving DecidableEq, Repr

inductive PayMethod
  | credit_card | paypal
deriving DecidableEq, Repr

structure OrderItem where
  product : Nat
  name : String
  sku : String
  price : ℤ
  quantity : Nat
  image : String
  subtotal : ℤ
deriving DecidableEq, Repr

structure ShippingAddress where
  firstName : String
  lastName : String
  street : String
  city : String
  state : String
  zipCode : String
  country : String
  phone : String
deriving DecidableEq, Repr

structure ShippingMethod where
  id : String
  name : String
  price : ℤ
  estimatedDays : String
deriving DecidableEq, Repr

structure PaymentDetails where
  method : PayMethod
  cardLast4 : Option String
  cardBrand : Option String
  paypalEmail : Option String
  paypalTransactionId : Option String
  transactionId : Option String
  paidAt : Option Nat
deriving DecidableEq, Repr

structure Order where
  orderNumber : String
  user : Nat
  items : List OrderItem
  shippingAddress : ShippingAddress
  shippingMethod : ShippingMethod
  paymentDetails : PaymentDetails
  subtotal : ℤ
  shippingCost : ℤ
  tax : ℤ
  discount : ℤ
  total : ℤ
  status : OrderStatus
  trackingNumber : Option String
  carrier : Option String
  paidAt : Option Nat
  shippedAt : Option Nat
  deliveredAt : Option Nat
  cancelledAt : Option Nat
  customerNote : Option String
  adminNote : Option String
deriving DecidableEq, Repr

/-! ## Decimal rendering and padding

`natToString` embeds the JavaScript decimal rendering used by the order-number
middleware; `padStart` embeds the JavaScript padding of a string on the left
with a fill character up to a target length (it never truncates). -/

def digitChar (n : Nat) : Char :=
  Char.ofNat (48 + n)

def natDigitsCore (fuel n : Nat) : List Char :=
  match fuel with
  | 0 => []
  | fuel + 1 =>
    if n < 10 then [digitChar n]
    else natDigitsCore fuel (n / 10) ++ [digitChar (n % 10)]

def natToString (n : Nat) : String :=
  ⟨natDigitsCore (n + 1) n⟩

def padStart (s : String) (len : Nat) (c : Char) : String :=
  if len ≤ s.data.length then s
  else ⟨List.replicate (len - s.data.length) c ++ s.data⟩

/-! ## Order save middleware (pre-save hooks of the order schema) -/

/-- Order-number middleware: on a save of a document without an order number,
assign one from the current collection count and the current year. -/
def generateOrderNumber (year count : Nat) : String :=
  "ORD-" ++ natToString year ++ "-" ++ padStart (natToString (count + 1)) 5 '0'

def orderNumberHook (count year : Nat) (o : Order) : Order :=
  if o.orderNumber = "" then
    { o with orderNumber := generateOrderNumber year count }
  else o

/-- Totals middleware: recompute `subtotal` from the items and `total` from the
monetary fields, on every save. -/
def totalsHook (o : Order) : Order :=
  let sub := o.items.foldl (fun s i => s + i.subtotal) 0
  { o with subtotal := sub, total := sub + o.shippingCost + o.tax - o.discount }

def orderPreSave (count year : Nat) (o : Order) : Order :=
  totalsHook (orderNumberHook count year o)

/-! ## Order schema validators -/

def validOrderItem (i : OrderItem) : Bool :=
  decide (0 ≤ i.price) && decide (1 ≤ i.quantity) && decide (0 ≤ i.subtotal)

def validOrder (o : Order) : Bool :=
  decide (o.orderNumber ≠ "") &&
  decide (o.items ≠ []) &&
  o.items.all validOrderItem &&
  decide (0 ≤ o.subtotal) &&
  decide (0 ≤ o.shippingCost) &&
  decide (0 ≤ o.tax) &&
  decide (0 ≤ o.discount) &&
  decide (0 ≤ o.total)

inductive SaveError
  | validationError
deriving DecidableEq, Repr

def saveOrder (count year : Nat) (o : Order) : Except SaveError Order :=
  let o' := orderPreSave count year o
  if validOrder o' then .ok o' else .error .validationError

/-! ## Order-number format (claim C3)

`isOrdFormat` holds of exactly the strings of the shape
`ORD-` + four digit characters + `-` + five digit characters. -/

def isOrdFormat (s : String) : Bool :=
  match s.data with
  | 'O' :: 'R' :: 'D' :: '-' :: y1 :: y2 :: y3 :: y4 :: '-'
      :: d1 :: d2 :: d3 :: d4 :: d5 :: [] =>
    y1.isDigit && y2.isDigit && y3.isDigit && y4.isDigit &&
    d1.isDigit && d2.isDigit && d3.isDigit && d4.isDigit && d5.isDigit
  | _ => false

/-! ## Product data model (product schema file) -/

inductive ProductStatus
  | draft | active | archived
deriving DecidableEq, Repr

structure Specification where
  label : String
  value : String
deriving DecidableEq, Repr

structure ProductImage where
  url : String
  publicId : String
  alt : Option String
  isPrimary : Bool
deriving DecidableEq, Repr

structure Product where
  name : String
  slug : String
  description : String
  shortDescription : Option String
  category : Nat
  brand : String
  price : ℤ
  compareAtPrice : Option ℤ
  costPrice : Option ℤ
  sku : String
  stock : Nat
  lowStockThreshold : Nat
  images : List ProductImage
  specifications : List Specification
  averageRating : ℚ
  reviewCount : Nat
  soldCount : Nat
  viewCount : Nat
  status : ProductStatus
  isFeatured : Bool
deriving DecidableEq, Repr

/-! ## Product save middleware -/

def isSlugChar (c : Char) : Bool :=
  (97 ≤ c.toNat && c.toNat ≤ 122) || (48 ≤ c.toNat && c.toNat ≤ 57)

/-- Embeds `replace(/[^a-z0-9]+/g, '-')`: each maximal run of characters
outside `[a-z0-9]` becomes a single hyphen. -/
def slugCollapse (inRun : Bool) : List Char → List Char
  | [] => []
  | ch :: rest =>
    if isSlugChar ch then ch :: slugCollapse false rest
    else if inRun then slugCollapse true rest
    else '-' :: slugCollapse true rest

/-- Embeds `replace(/^-|-$/g, '')`: drop one leading and one trailing hyphen. -/
def stripHyphens (l : List Char) : List Char :=
  let l1 := match l with
    | '-' :: rest => rest
    | other => other
  if l1.getLast? = some '-' then l1.dropLast else l1

def slugify (s : String) : String :=
  ⟨stripHyphens (slugCollapse false (s.data.map Char.toLower))⟩

def slugHook (p : Product) : Product :=
  if p.slug = "" ∧ p.name ≠ "" then { p with slug := slugify p.name } else p

/-- Primary-image middleware: if the image list is non-empty and none is
marked primary, mark the first one primary. -/
def primaryImageHook (images : List ProductImage) : List ProductImage :=
  if 0 < images.length then
    if images.any (fun i => i.isPrimary) then images
    else
      match images with
      | [] => []
      | i :: rest => { i with isPrimary := true } :: rest
  else images

def productPreSave (p : Product) : Product :=
  let p1 := slugHook p
  { p1 with images := primaryImageHook p1.images }

def validProduct (p : Product) : Bool :=
  decide (p.name ≠ "") &&
  decide (p.name.length ≤ 200) &&
  decide (p.slug ≠ "") &&
  decide (p.description ≠ "") &&
  decide (p.description.length ≤ 5000) &&
  decide (p.brand ≠ "") &&
  decide (0 ≤ p.price) &&
  decide (p.sku ≠ "") &&
  decide (p.images ≠ []) &&
  decide ((0 : ℚ) ≤ p.averageRating) &&
  decide (p.averageRating ≤ (5 : ℚ))

def saveProduct (p : Product) : Except SaveError Product :=
  let p' := productPreSave p
  if validProduct p' then .ok p' else .error .validationError

def countPrimary (images : List ProductImage) : Nat :=
  (images.filter (fun i => i.isPrimary)).length

/-! ## Review data model and rating aggregation (review schema file) -/

inductive ReviewStatus
  | pending | approved | rejected
deriving DecidableEq, Repr

structure Review where
  product : Nat
  user : Nat
  order : Nat
  rating : Nat
  title : Option String
  comment : String
  isVerifiedPurchase : Bool
  status : ReviewStatus
  helpfulCount : Nat
  notHelpfulCount : Nat
deriving DecidableEq, Repr

def approvedReviews (reviews : List Review) (pid : Nat) : List Review :=
  reviews.filter
    (fun r => decide (r.product = pid) && decide (r.status = ReviewStatus.approved))

/-- JavaScript `Math.round`: round half towards positive infinity. -/
def jsRound (x : ℚ) : ℤ :=
  ⌊x + 1 / 2⌋

/-- The aggregation pipeline: match approved reviews of the product, group
into their average rating and count; an empty match produces no group. -/
def aggregateRatingStats (reviews : List Review) (pid : Nat) : Option (ℚ × Nat) :=
  match approvedReviews reviews pid with
  | [] => none
  | r :: rs =>
    some (((r :: rs).map (fun q => (q.rating : ℚ))).sum / (((r :: rs).length : Nat) : ℚ),
      (r :: rs).length)

def updateProductRating (reviews : List Review) (pid : Nat) (p : Product) : Product :=
  match aggregateRatingStats reviews pid with
  | some (avg, cnt) =>
    { p with averageRating := (jsRound (avg * 10) : ℚ) / 10, reviewCount := cnt }
  | none => { p with averageRating := 0, reviewCount := 0 }

/-- Review post-save hook: recompute the product rating only when the saved
document's status is approved. -/
def postSaveReview (reviews : List Review) (doc : Review) (p : Product) : Product :=
  if doc.status = ReviewStatus.approved then updateProductRating reviews doc.product p
  else p

/-- Review post-findOneAndUpdate hook: recompute whenever a document was found. -/
def postFindOneAndUpdateReview (reviews : List Review) (doc : Option Review)
    (p : Product) : Product :=
  match doc with
  | some d => updateProductRating reviews d.product p
  | none => p

/-- Review post-findOneAndDelete hook: recompute whenever a document was found. -/
def postFindOneAndDeleteReview (reviews : List Review) (doc : Option Review)
    (p : Product) : Product :=
  match doc with
  | some d => updateProductRating reviews d.product p
  | none => p

/-! ## Review uniqueness (claim C8) -/

inductive InsertError
  | duplicateKey
deriving DecidableEq, Repr

def sameReviewKey (a b : Review) : Bool :=
  decide (a.user = b.user) && decide (a.product = b.product) && decide (a.order = b.order)

/-- Modelled from the spec: the source declares the unique compound index on
`(user, product, order)` but the rejection of a duplicate insert is performed
by the database engine, which is not among the source files; the insert is
modelled from the spec's uniqueness contract (a second review with the same
triple fails with a duplicate-key error and the store is left unchanged). -/
def insertReview (reviews : List Review) (r : Review) : Except InsertError (List Review) :=
  if reviews.any (fun q => sameReviewKey r q) then .error .duplicateKey
  else .ok (reviews ++ [r])

/-! ## Identity: login server action (auth actions file) -/

inductive Role
  | customer | admin
deriving DecidableEq, Repr

structure StoredUser where
  id : Nat
  firstName : String
  lastName : String
  email : String
  passwordHash : Option String
  role : Role
deriving DecidableEq, Repr

structure ActionResponse where
  success : Bool
  message : Option String
  errors : Option (List (String × List String))
deriving DecidableEq, Repr

def findByEmail (users : List StoredUser) (email : String) : Option StoredUser :=
  users.find? (fun u => decide (u.email = email))

/-- `comparePassword` of the user model: false when no password hash is stored,
otherwise defer to the hash verifier (bcrypt, treated as a parameter). -/
def comparePassword (verify : String → String → Bool) (u : StoredUser)
    (candidate : String) : Bool :=
  match u.passwordHash with
  | none => false
  | some h => verify h candidate

def loginValidationErrors (emailOk : String → Bool) (email password : String) :
    List (String × List String) :=
  (if emailOk email then [] else [("email", ["Invalid email address"])]) ++
  (if password.length = 0 then [("password", ["Password is required"])] else [])

/-- The `loginUser` server action: validate the form, look the user up by
email, verify the password; both the unknown-email and the wrong-password
paths return the same structured failure.  The email-format check and the
hash verifier are framework primitives, passed as parameters. -/
def loginUser (verify : String → String → Bool) (emailOk : String → Bool)
    (users : List StoredUser) (email password : String) : ActionResponse :=
  if emailOk email && decide (1 ≤ password.length) then
    match findByEmail users email with
    | none =>
      { success := false, message := some "Invalid email or password", errors := none }
    | some u =>
      if comparePassword verify u password then
        { success := true, message := some "Login successful", errors := none }
      else
        { success := false, message := some "Invalid email or password", errors := none }
  else
    { success := false, message := none,
      errors := some (loginValidationErrors emailOk email password) }

/-! ## Order status transitions (claim C2)

Modelled from the spec: the source files only declare the `status` enum of the
order schema; the Transition operation itself is not among them.  The state
diagram, terminal states, timestamp stamping and role policy follow the
spec's order-lifecycle section. -/

inductive TransitionError
  | invalidTransition | notAuthorized
deriving DecidableEq, Repr

def isTerminal : OrderStatus → Bool
  | .delivered => true
  | .cancelled => true
  | _ => false

def allowedTransition (s t : OrderStatus) : Bool :=
  match s, t with
  | .pending, .processing => true
  | .processing, .shipped => true
  | .shipped, .delivered => true
  | s, .cancelled => !(isTerminal s)
  | _, _ => false

def roleAllows (actor : Role) (s t : OrderStatus) : Bool :=
  match actor with
  | .admin => true
  | .customer =>
    decide (t = OrderStatus.cancelled) &&
    (decide (s = OrderStatus.pending) || decide (s = OrderStatus.processing))

def stampOnce (field : Option Nat) (now : Nat) : Option Nat :=
  match field with
  | some v => some v
  | none => some now

def stampTimestamp (o : Order) (t : OrderStatus) (now : Nat) : Order :=
  match t with
  | .pending => o
  | .processing => { o with paidAt := stampOnce o.paidAt now }
  | .shipped => { o with shippedAt := stampOnce o.shippedAt now }
  | .delivered => { o with deliveredAt := stampOnce o.deliveredAt now }
  | .cancelled => { o with cancelledAt := stampOnce o.cancelledAt now }

def transition (o : Order) (t : OrderStatus) (actor : Role) (now : Nat) :
    Except TransitionError Order :=
  if allowedTransition o.status t then
    if roleAllows actor o.status t then
      .ok (stampTimestamp { o with status := t } t now)
    else .error .notAuthorized
  else .error .invalidTransition

/-! ## Sample documents used to instantiate witnesses and counterexamples -/

def sampleItem : OrderItem :=
  { product := 1, name := "Widget", sku := "W1", price := 1000, quantity := 2,
    image := "w.jpg", subtotal := 2000 }

def sampleAddress : ShippingAddress :=
  { firstName := "Ada", lastName := "L", street := "1 Main", city := "Town",
    state := "TS", zipCode := "12345", country := "USA", phone := "5551234" }

def sampleMethod : ShippingMethod :=
  { id := "std", name := "Standard", price := 500, estimatedDays := "3-5" }

def samplePayment : PaymentDetails :=
  { method := .credit_card, cardLast4 := some "4242", cardBrand := some "Visa",
    paypalEmail := none, paypalTransactionId := none, transactionId := none,
    paidAt := none }

def sampleOrder : Order :=
  { orderNumber := "", user := 7, items := [sampleItem],
    shippingAddress := sampleAddress, shippingMethod := sampleMethod,
    paymentDetails := samplePayment, subtotal := 0, shippingCost := 500,
    tax := 150, discount := 0, total := 0, status := .pending,
    trackingNumber := none, carrier := none, paidAt := none, shippedAt := none,
    deliveredAt := none, cancelledAt := none, customerNote := none,
    adminNote := none }

def emptyItemsOrder : Order :=
  { sampleOrder with items := [] }

def negativeTotalOrder : Order :=
  { sampleOrder with discount := 10000 }

def numberedOrder : Order :=
  { sampleOrder with
    orderNumber := "ORD-2025-00042"
    status := .processing
    paidAt := some 11 }

def deliveredOrder : Order :=
  { numberedOrder with status := .delivered }

def img (u : String) (pr : Bool) : ProductImage :=
  { url := u, publicId := u, alt := none, isPrimary := pr }

def baseProduct : Product :=
  { name := "Phone", slug := "phone", description := "A phone with a battery.",
    shortDescription := none, category := 1, brand := "Acme", price := 10000,
    compareAtPrice := none, costPrice := none, sku := "P1", stock := 5,
    lowStockThreshold := 10, images := [img "a" true], specifications := [],
    averageRating := 0, reviewCount := 0, soldCount := 0, viewCount := 0,
    status := .active, isFeatured := false }

def twoPrimaryProduct : Product :=
  { baseProduct with images := [img "a" true, img "b" true] }

def noPrimaryProduct : Product :=
  { baseProduct with images := [img "a" false, img "b" false] }

def staleRatedProduct : Product :=
  { baseProduct with averageRating := 5, reviewCount := 1 }

def approvedReview5 : Review :=
  { product := 1, user := 2, order := 3, rating := 5, title := none,
    comment := "Great product!!", isVerifiedPurchase := true,
    status := .approved, helpfulCount := 0, notHelpfulCount := 0 }

def approvedReview4 : Review :=
  { approvedReview5 with user := 4, order := 5, rating := 4 }

def rejectedEditedReview : Review :=
  { approvedReview5 with status := .rejected }

def duplicateKeyReview : Review :=
  { approvedReview5 with rating := 1, comment := "Changed my mind entirely." }

def demoUser : StoredUser :=
  { id := 1, firstName := "Ada", lastName := "L", email := "ada@example.com",
    passwordHash := some "HASH", role := .customer }

def demoVerify : String → String → Bool :=
  fun h c => decide (h = "HASH") && decide (c = "secret")

def demoEmailOk : String → Bool :=
  fun e => decide (e ≠ "")

/-! ## Helper lemmas -/

theorem foldl_add_subtotal (l : List OrderItem) (a : ℤ) :
    l.foldl (fun s i => s + i.subtotal) a = a + (l.map OrderItem.subtotal).sum := by
  induction l generalizing a with
  | nil => simp
  | cons x xs ih => simp [List.foldl_cons, ih, add_assoc]

theorem orderNumberHook_frame (count year : Nat) (o : Order) :
    (orderNumberHook count year o).items = o.items ∧
    (orderNumberHook count year o).shippingCost = o.shippingCost ∧
    (orderNumberHook count year o).tax = o.tax ∧
    (orderNumberHook count year o).discount = o.discount := by
  unfold orderNumberHook
  by_cases h : o.orderNumber = "" <;> simp [h]

theorem digitChar_isDigit (n : Nat) (h : n < 10) : (digitChar n).isDigit = true := by
  interval_cases n <;> decide

theorem natDigitsCore_length_le (k : Nat) :
    ∀ fuel n, n < 10 ^ (k + 1) → (natDigitsCore fuel n).length ≤ k + 1 := by
  induction k with
  | zero =>
    intro fuel n hn
    match fuel with
    | 0 => simp [natDigitsCore]
    | fuel + 1 =>
      have h10 : n < 10 := by simpa using hn
      simp [natDigitsCore, h10]
  | succ k ih =>
    intro fuel n hn
    match fuel with
    | 0 => simp [natDigitsCore]
    | fuel + 1 =>
      by_cases h10 : n < 10
      · simp [natDigitsCore, h10]
      · have hdiv : n / 10 < 10 ^ (k + 1) := by
          rw [Nat.div_lt_iff_lt_mul (by omega : 0 < 10)]
          calc n < 10 ^ (k + 1 + 1) := hn
            _ = 10 ^ (k + 1) * 10 := by ring
        have := ih fuel (n / 10) hdiv
        simp [natDigitsCore, h10]
        omega

theorem natDigitsCore_length_ge (k : Nat) :
    ∀ fuel n, 10 ^ k ≤ n → k < fuel → k + 1 ≤ (natDigitsCore fuel n).length := by
  induction k with
  | zero =>
    intro fuel n _ hf
    match fuel, hf with
    | fuel + 1, _ =>
      by_cases h10 : n < 10 <;> simp [natDigitsCore, h10]
  | succ k ih =>
    intro fuel n hn hf
    match fuel, hf with
    | fuel + 1, _ =>
      have h10 : ¬ n < 10 := by
        have : 10 ≤ 10 ^ (k + 1) := by
          calc 10 = 10 ^ 1 := by norm_num
            _ ≤ 10 ^ (k + 1) := Nat.pow_le_pow_right (by omega) (by omega)
        omega
      have hdiv : 10 ^ k ≤ n / 10 := by
        rw [Nat.le_div_iff_mul_le (by omega : 0 < 10)]
        calc 10 ^ k * 10 = 10 ^ (k + 1) := by ring
          _ ≤ n := hn
      have := ih fuel (n / 10) hdiv (by omega)
      simp [natDigitsCore, h10]
      omega

theorem natDigitsCore_digits :
    ∀ fuel n c, c ∈ natDigitsCore fuel n → c.isDigit = true := by
  intro fuel
  induction fuel with
  | zero => intro n c hc; simp [natDigitsCore] at hc
  | succ fuel ih =>
    intro n c hc
    by_cases h10 : n < 10
    · simp [natDigitsCore, h10] at hc
      subst hc
      exact digitChar_isDigit n h10
    · simp [natDigitsCore, h10, List.mem_append] at hc
      rcases hc with hc | hc
      · exact ih (n / 10) c hc
      · subst hc
        exact digitChar_isDigit (n % 10) (Nat.mod_lt n (by omega))

theorem natToString_length_four (n : Nat) (h1 : 1000 ≤ n) (h2 : n ≤ 9999) :
    (natToString n).data.length = 4 := by
  have hle := natDigitsCore_length_le 3 (n + 1) n (by norm_num; omega)
  have hge := natDigitsCore_length_ge 3 (n + 1) n (by norm_num; omega) (by omega)
  show (natDigitsCore (n + 1) n).length = 4
  omega

theorem natToString_digits (n : Nat) (c : Char) (h : c ∈ (natToString n).data) :
    c.isDigit = true :=
  natDigitsCore_digits (n + 1) n c h

theorem padStart_length (s : String) (len : Nat) (c : Char)
    (h : s.data.length ≤ len) : (padStart s len c).data.length = len := by
  unfold padStart
  split
  next hc => omega
  next hc =>
    show (List.replicate (len - s.data.length) c ++ s.data).length = len
    have hb : s.length = s.data.length := rfl
    simp [List.length_append, List.length_replicate]
    omega

theorem padStart_mem (s : String) (len : Nat) (c x : Char)
    (h : x ∈ (padStart s len c).data) : x = c ∨ x ∈ s.data := by
  unfold padStart at h
  split at h
  next hc => exact Or.inr h
  next hc =>
    have h' : x ∈ List.replicate (len - s.data.length) c ++ s.data := h
    rcases List.mem_append.mp h' with hm | hm
    · exact Or.inl (List.eq_of_mem_replicate hm)
    · exact Or.inr hm

theorem list_length_eq_four {α : Type} {l : List α} (h : l.length = 4) :
    ∃ a b c d, l = [a, b, c, d] := by
  cases l with
  | nil => simp at h
  | cons a t =>
    have ht : t.length = 3 := by simpa using h
    obtain ⟨b, c, d, rfl⟩ := List.length_eq_three.mp ht
    exact ⟨a, b, c, d, rfl⟩

theorem list_length_eq_five {α : Type} {l : List α} (h : l.length = 5) :
    ∃ a b c d e, l = [a, b, c, d, e] := by
  cases l with
  | nil => simp at h
  | cons a t =>
    obtain ⟨b, c, d, e, rfl⟩ := list_length_eq_four (by simpa using h)
    exact ⟨a, b, c, d, e, rfl⟩

theorem isOrdFormat_of_parts (ys ds : List Char)
    (hy : ys.length = 4) (hd : ds.length = 5)
    (hyd : ∀ c ∈ ys, c.isDigit = true) (hdd : ∀ c ∈ ds, c.isDigit = true) :
    isOrdFormat ⟨'O' :: 'R' :: 'D' :: '-' :: (ys ++ '-' :: ds)⟩ = true := by
  obtain ⟨a, b, c, d, rfl⟩ := list_length_eq_four hy
  obtain ⟨e, f, g, h, i, rfl⟩ := list_length_eq_five hd
  simp only [isOrdFormat, List.cons_append, List.nil_append]
  simp [hyd a (by simp), hyd b (by simp), hyd c (by simp), hyd d (by simp),
    hdd e (by simp), hdd f (by simp), hdd g (by simp), hdd h (by simp),
    hdd i (by simp)]

theorem generateOrderNumber_data (year count : Nat) :
    (generateOrderNumber year count).data
      = 'O' :: 'R' :: 'D' :: '-'
        :: ((natToString year).data
            ++ '-' :: (padStart (natToString (count + 1)) 5 '0').data) := by
  unfold generateOrderNumber
  simp only [String.data_append]
  simp

theorem countPrimary_pos_of_any (l : List ProductImage)
    (h : l.any (fun i => i.isPrimary) = true) : 1 ≤ countPrimary l := by
  unfold countPrimary
  obtain ⟨x, hx, hpx⟩ := List.any_eq_true.mp h
  have hmem : x ∈ l.filter (fun i => i.isPrimary) := List.mem_filter.mpr ⟨hx, hpx⟩
  have := List.length_pos.mpr (List.ne_nil_of_mem hmem)
  omega

theorem countPrimary_eq_zero_of_none (l : List ProductImage)
    (h : l.any (fun i => i.isPrimary) = false) : countPrimary l = 0 := by
  unfold countPrimary
  rw [List.length_eq_zero, List.filter_eq_nil_iff]
  intro x hx
  have := List.any_eq_false.mp h x hx
  simpa using this

theorem primaryImageHook_of_any (l : List ProductImage)
    (h : l.any (fun i => i.isPrimary) = true) : primaryImageHook l = l := by
  unfold primaryImageHook
  by_cases hlen : 0 < l.length <;> simp [hlen, h]

theorem primaryImageHook_none (x : ProductImage) (rest : List ProductImage)
    (h : (x :: rest).any (fun i => i.isPrimary) = false) :
    primaryImageHook (x :: rest) = { x with isPrimary := true } :: rest := by
  unfold primaryImageHook
  simp [h]

theorem countPrimary_cons_primary (x : ProductImage) (rest : List ProductImage) :
    countPrimary ({ x with isPrimary := true } :: rest) = countPrimary rest + 1 := by
  unfold countPrimary
  simp [List.filter_cons]

theorem updateProductRating_spec_helper (reviews : List Review) (pid : Nat)
    (p : Product) :
    (updateProductRating reviews pid p).reviewCount
        = (approvedReviews reviews pid).length ∧
    (approvedReviews reviews pid = [] →
      (updateProductRating reviews pid p).averageRating = 0 ∧
      (updateProductRating reviews pid p).reviewCount = 0) ∧
    (approvedReviews reviews pid ≠ [] →
      (updateProductRating reviews pid p).averageRating
        = (jsRound ((((approvedReviews reviews pid).map
              (fun q => (q.rating : ℚ))).sum
            / ((approvedReviews reviews pid).length : ℚ)) * 10) : ℚ) / 10) := by
  unfold updateProductRating aggregateRatingStats
  cases hA : approvedReviews reviews pid with
  | nil => simp
  | cons r rs => simp

/-! ## Claim C1 -/

/-- C1: every successful order save stores `subtotal = Σ item.subtotal` and
`total = subtotal + shippingCost + tax - discount`, and the two fields are
recomputed on every save independently of the caller-supplied values. -/
theorem order_save_totals (count year : Nat) (o o' : Order)
    (h : saveOrder count year o = .ok o') :
    o'.subtotal = (o'.items.map OrderItem.subtotal).sum ∧
    o'.total = o'.subtotal + o'.shippingCost + o'.tax - o'.discount ∧
    (∀ s t : ℤ,
      (orderPreSave count year { o with subtotal := s, total := t }).subtotal
        = o'.subtotal ∧
      (orderPreSave count year { o with subtotal := s, total := t }).total
        = o'.total) := by
  have ho' : o' = orderPreSave count year o := by
    unfold saveOrder at h
    by_cases hv : validOrder (orderPreSave count year o) = true
    · simp [hv] at h; exact h.symm
    · simp [hv] at h
  subst ho'
  unfold orderPreSave totalsHook
  refine ⟨?_, ?_, ?_⟩
  · simp [foldl_add_subtotal]
  · simp
  · intro s t
    have h1 : (orderNumberHook count year { o with subtotal := s, total := t }).items
        = o.items := by
      unfold orderNumberHook; by_cases h : o.orderNumber = "" <;> simp [h]
    have h2 := orderNumberHook_frame count year o
    have h3 := orderNumberHook_frame count year { o with subtotal := s, total := t }
    constructor
    · simp [h1, h2.1]
    · simp [h1, h2.1, h2.2.1, h2.2.2.1, h2.2.2.2, h3.2.1, h3.2.2.1, h3.2.2.2]

theorem order_save_totals_witness :
    (orderPreSave 0 2026 sampleOrder).subtotal
      = ((orderPreSave 0 2026 sampleOrder).items.map OrderItem.subtotal).sum ∧
    (orderPreSave 0 2026 sampleOrder).total
      = (orderPreSave 0 2026 sampleOrder).subtotal
        + (orderPreSave 0 2026 sampleOrder).shippingCost
        + (orderPreSave 0 2026 sampleOrder).tax
        - (orderPreSave 0 2026 sampleOrder).discount := by
  have h := order_save_totals 0 2026 sampleOrder (orderPreSave 0 2026 sampleOrder)
    (by rfl)
  exact ⟨h.1, h.2.1⟩

/-! ## Claim C4 -/

/-- C4: an order save fails with a `ValidationError` when the items list is
empty or the recomputed total would be negative, and every persisted order has
a non-empty item list and non-negative monetary fields. -/
theorem order_save_rejects (count year : Nat) (o : Order) :
    (o.items = [] → saveOrder count year o = .error .validationError) ∧
    ((orderPreSave count year o).total < 0 →
      saveOrder count year o = .error .validationError) ∧
    (∀ o', saveOrder count year o = .ok o' →
      o'.items ≠ [] ∧ 0 ≤ o'.subtotal ∧ 0 ≤ o'.shippingCost ∧ 0 ≤ o'.tax ∧
      0 ≤ o'.discount ∧ 0 ≤ o'.total) := by
  refine ⟨?_, ?_, ?_⟩
  · intro hempty
    have hitems : (orderPreSave count year o).items = [] := by
      unfold orderPreSave totalsHook
      simp [(orderNumberHook_frame count year o).1, hempty]
    have hv : validOrder (orderPreSave count year o) = false := by
      unfold validOrder
      simp [hitems]
    unfold saveOrder
    simp [hv]
  · intro hneg
    have hv : validOrder (orderPreSave count year o) = false := by
      unfold validOrder
      simp only [Bool.and_eq_false_iff]
      right
      simpa [decide_eq_false_iff_not, not_le] using hneg
    unfold saveOrder
    simp [hv]
  · intro o' h
    unfold saveOrder at h
    by_cases hv : validOrder (orderPreSave count year o) = true
    · simp [hv] at h
      subst h
      unfold validOrder at hv
      simp only [Bool.and_eq_true, decide_eq_true_eq] at hv
      exact ⟨hv.1.1.1.1.1.1.2, hv.1.1.1.1.2, hv.1.1.1.2, hv.1.1.2, hv.1.2, hv.2⟩
    · simp [hv] at h

theorem order_save_rejects_witness :
    saveOrder 0 2026 emptyItemsOrder = .error .validationError ∧
    saveOrder 3 2026 negativeTotalOrder = .error .validationError := by
  constructor
  · exact (order_save_rejects 0 2026 emptyItemsOrder).1 rfl
  · exact (order_save_rejects 3 2026 negativeTotalOrder).2.1 (by decide)

/-! ## Claim C3 -/

/-- C3 counterexample: with 99999 persisted orders, the next generated order
number carries a six-digit sequence (`padStart` never truncates), so the
claimed `ORD-<4-digit year>-<5-digit sequence>` shape is violated. -/
theorem order_number_format_counterexample :
    (orderNumberHook 99999 2026 sampleOrder).orderNumber = "ORD-2026-100000" ∧
    isOrdFormat "ORD-2026-100000" = false := by
  constructor
  · rfl
  · rfl

/-- C3 amended: an order saved without an order number is assigned
`ORD-<year>-<sequence count+1 zero-padded to at least five digits>`, and the
result matches the exact `ORD-YYYY-NNNNN` shape whenever the current year has
four digits and `count + 1` has at most five. -/
theorem order_number_generation (count year : Nat) (o : Order)
    (h0 : o.orderNumber = "") (hy1 : 1000 ≤ year) (hy2 : year ≤ 9999)
    (hc : count + 1 ≤ 99999) :
    (orderNumberHook count year o).orderNumber = generateOrderNumber year count ∧
    isOrdFormat (generateOrderNumber year count) = true := by
  constructor
  · unfold orderNumberHook
    simp [h0]
  · have hylen : (natToString year).data.length = 4 :=
      natToString_length_four year hy1 hy2
    have hslen : (padStart (natToString (count + 1)) 5 '0').data.length = 5 := by
      apply padStart_length
      have := natDigitsCore_length_le 4 (count + 1 + 1) (count + 1)
        (by norm_num; omega)
      show (natDigitsCore (count + 1 + 1) (count + 1)).length ≤ 5
      omega
    have hsmem : ∀ c ∈ (padStart (natToString (count + 1)) 5 '0').data,
        c.isDigit = true := by
      intro c hc
      rcases padStart_mem _ _ _ _ hc with h | h
      · subst h; decide
      · exact natToString_digits _ c h
    have hgen : generateOrderNumber year count
        = ⟨'O' :: 'R' :: 'D' :: '-'
            :: ((natToString year).data
                ++ '-' :: (padStart (natToString (count + 1)) 5 '0').data)⟩ := by
      apply String.ext
      exact generateOrderNumber_data year count
    rw [hgen]
    exact isOrdFormat_of_parts _ _ hylen hslen (natToString_digits year) hsmem

theorem order_number_generation_witness :
    (orderNumberHook 41 2026 sampleOrder).orderNumber
      = generateOrderNumber 2026 41 ∧
    isOrdFormat (generateOrderNumber 2026 41) = true :=
  order_number_generation 41 2026 sampleOrder rfl (by decide) (by decide)
    (by decide)

/-! ## Claim C10 -/

/-- C10: the order pre-save middleware never changes a non-empty order number,
and changes no field of the document other than `subtotal` and `total`. -/
theorem order_save_frame (count year : Nat) (o : Order)
    (h : o.orderNumber ≠ "") :
    (orderPreSave count year o).orderNumber = o.orderNumber ∧
    (orderPreSave count year o).status = o.status ∧
    (orderPreSave count year o).items = o.items ∧
    (orderPreSave count year o).user = o.user ∧
    (orderPreSave count year o).shippingAddress = o.shippingAddress ∧
    (orderPreSave count year o).shippingMethod = o.shippingMethod ∧
    (orderPreSave count year o).paymentDetails = o.paymentDetails ∧
    (orderPreSave count year o).shippingCost = o.shippingCost ∧
    (orderPreSave count year o).tax = o.tax ∧
    (orderPreSave count year o).discount = o.discount ∧
    (orderPreSave count year o).trackingNumber = o.trackingNumber ∧
    (orderPreSave count year o).carrier = o.carrier ∧
    (orderPreSave count year o).paidAt = o.paidAt ∧
    (orderPreSave count year o).shippedAt = o.shippedAt ∧
    (orderPreSave count year o).deliveredAt = o.deliveredAt ∧
    (orderPreSave count year o).cancelledAt = o.cancelledAt ∧
    (orderPreSave count year o).customerNote = o.customerNote ∧
    (orderPreSave count year o).adminNote = o.adminNote := by
  unfold orderPreSave totalsHook orderNumberHook
  simp [h]

theorem order_save_frame_witness :
    (orderPreSave 5 2026 numberedOrder).orderNumber = numberedOrder.orderNumber ∧
    (orderPreSave 5 2026 numberedOrder).status = numberedOrder.status ∧
    (orderPreSave 5 2026 numberedOrder).paidAt = numberedOrder.paidAt := by
  have h := order_save_frame 5 2026 numberedOrder (by decide)
  exact ⟨h.1, h.2.1, h.2.2.2.2.2.2.2.2.2.2.2.2.1⟩

/-! ## Claim C7 -/

/-- C7 counterexample: a product carrying two images both marked primary is
saved unchanged; the save leaves more than one primary image, so saves do not
enforce exactly one primary image. -/
theorem product_primary_image_counterexample :
    saveProduct twoPrimaryProduct = .ok twoPrimaryProduct ∧
    countPrimary twoPrimaryProduct.images = 2 := by
  constructor
  · rfl
  · rfl

/-- C7 amended: after every successful product save the image list is
non-empty and carries at least one primary image, and when no image was
marked primary the first is auto-promoted, leaving exactly one; a save does
not, however, reduce several primary marks to one. -/
theorem product_save_primary (p p' : Product) (h : saveProduct p = .ok p') :
    p'.images ≠ [] ∧ 1 ≤ countPrimary p'.images ∧
    (countPrimary p.images = 0 → countPrimary p'.images = 1) := by
  have hp' : p' = productPreSave p ∧ validProduct (productPreSave p) = true := by
    unfold saveProduct at h
    by_cases hv : validProduct (productPreSave p) = true
    · simp [hv] at h; exact ⟨h.symm, hv⟩
    · simp [hv] at h
  obtain ⟨rfl, hv⟩ := hp'
  have himg : (productPreSave p).images = primaryImageHook p.images := by
    unfold productPreSave slugHook
    by_cases hcond : p.slug = "" ∧ p.name ≠ "" <;> simp [hcond]
  have hne : (productPreSave p).images ≠ [] := by
    unfold validProduct at hv
    simp only [Bool.and_eq_true, decide_eq_true_eq] at hv
    exact hv.1.1.2
  rw [himg] at hne ⊢
  cases hany : p.images.any (fun i => i.isPrimary) with
  | true =>
    rw [primaryImageHook_of_any p.images hany] at hne ⊢
    refine ⟨hne, countPrimary_pos_of_any _ hany, ?_⟩
    intro h0
    have hpos := countPrimary_pos_of_any _ hany
    omega
  | false =>
    cases himgs : p.images with
    | nil =>
      rw [himgs] at hne
      simp [primaryImageHook] at hne
    | cons x rest =>
      rw [himgs] at hany
      rw [primaryImageHook_none x rest hany]
      have hrest : countPrimary rest = 0 := by
        apply countPrimary_eq_zero_of_none
        simp only [List.any_cons, Bool.or_eq_false_iff] at hany
        exact hany.2
      refine ⟨by simp, ?_, ?_⟩
      · rw [countPrimary_cons_primary, hrest]
      · intro _
        rw [countPrimary_cons_primary, hrest]

theorem product_save_primary_witness :
    (productPreSave noPrimaryProduct).images ≠ [] ∧
    1 ≤ countPrimary (productPreSave noPrimaryProduct).images ∧
    (countPrimary noPrimaryProduct.images = 0 →
      countPrimary (productPreSave noPrimaryProduct).images = 1) :=
  product_save_primary noPrimaryProduct (productPreSave noPrimaryProduct) (by rfl)

/-! ## Claim C5 -/

/-- C5: the rating recomputation stores, as `averageRating`, the arithmetic
mean of the ratings of the product's approved reviews rounded to one decimal
place, and, as `reviewCount`, the number of those reviews; an empty approved
set resets both to zero. -/
theorem product_rating_recomputation (reviews : List Review) (pid : Nat)
    (p : Product) :
    (updateProductRating reviews pid p).reviewCount
        = (approvedReviews reviews pid).length ∧
    (approvedReviews reviews pid ≠ [] →
      (updateProductRating reviews pid p).averageRating
        = (jsRound ((((approvedReviews reviews pid).map
              (fun q => (q.rating : ℚ))).sum
            / ((approvedReviews reviews pid).length : ℚ)) * 10) : ℚ) / 10) ∧
    (approvedReviews reviews pid = [] →
      (updateProductRating reviews pid p).averageRating = 0 ∧
      (updateProductRating reviews pid p).reviewCount = 0) := by
  have h := updateProductRating_spec_helper reviews pid p
  exact ⟨h.1, h.2.2, h.2.1⟩

theorem product_rating_recomputation_witness :
    (updateProductRating [approvedReview5, approvedReview4, rejectedEditedReview]
        1 baseProduct).reviewCount
      = (approvedReviews [approvedReview5, approvedReview4, rejectedEditedReview]
          1).length ∧
    (updateProductRating [approvedReview5, approvedReview4, rejectedEditedReview]
        1 baseProduct).averageRating
      = (jsRound ((((approvedReviews
            [approvedReview5, approvedReview4, rejectedEditedReview] 1).map
              (fun q => (q.rating : ℚ))).sum
          / ((approvedReviews
              [approvedReview5, approvedReview4, rejectedEditedReview]
                1).length : ℚ)) * 10) : ℚ) / 10 ∧
    (updateProductRating [rejectedEditedReview] 1 baseProduct).averageRating
      = 0 := by
  have h1 := product_rating_recomputation
    [approvedReview5, approvedReview4, rejectedEditedReview] 1 baseProduct
  have h2 := product_rating_recomputation [rejectedEditedReview] 1 baseProduct
  exact ⟨h1.1, h1.2.1 (by decide), (h2.2.2 (by decide)).1⟩

/-! ## Claim C6 -/

/-- C6 counterexample: a review edited from approved to rejected and then
saved does not trigger the recomputation: the post-save hook only fires when
the saved document's current status is approved, so the product keeps its
stale cached rating even though its approved review set is empty. -/
theorem review_save_hook_counterexample :
    postSaveReview [rejectedEditedReview] rejectedEditedReview staleRatedProduct
      = staleRatedProduct ∧
    approvedReviews [rejectedEditedReview] rejectedEditedReview.product = [] ∧
    staleRatedProduct.averageRating ≠ 0 ∧
    staleRatedProduct.reviewCount ≠ 0 := by
  refine ⟨rfl, rfl, ?_, ?_⟩
  · decide
  · decide

/-- C6 corrected: the recomputation runs after a document save only when the
review's current status is approved, and unconditionally after every
findOneAndUpdate and findOneAndDelete that found a document; whenever it
runs, the product's cached review count matches its currently-approved set. -/
theorem review_hooks_recompute (reviews : List Review) (d : Review) (p : Product) :
    (d.status = ReviewStatus.approved →
      postSaveReview reviews d p = updateProductRating reviews d.product p) ∧
    (d.status ≠ ReviewStatus.approved → postSaveReview reviews d p = p) ∧
    (postFindOneAndUpdateReview reviews (some d) p
        = updateProductRating reviews d.product p) ∧
    (postFindOneAndDeleteReview reviews (some d) p
        = updateProductRating reviews d.product p) ∧
    (updateProductRating reviews d.product p).reviewCount
        = (approvedReviews reviews d.product).length := by
  refine ⟨?_, ?_, rfl, rfl,
    (updateProductRating_spec_helper reviews d.product p).1⟩
  · intro h
    unfold postSaveReview
    simp [h]
  · intro h
    unfold postSaveReview
    simp [h]

theorem review_hooks_recompute_witness :
    postSaveReview [approvedReview5] approvedReview5 baseProduct
      = updateProductRating [approvedReview5] approvedReview5.product baseProduct ∧
    postSaveReview [rejectedEditedReview] rejectedEditedReview baseProduct
      = baseProduct ∧
    postFindOneAndDeleteReview [] (some rejectedEditedReview) baseProduct
      = updateProductRating [] rejectedEditedReview.product baseProduct := by
  have h1 := review_hooks_recompute [approvedReview5] approvedReview5 baseProduct
  have h2 := review_hooks_recompute [rejectedEditedReview] rejectedEditedReview
    baseProduct
  exact ⟨h1.1 rfl, h2.2.1 (by decide), (review_hooks_recompute []
    rejectedEditedReview baseProduct).2.2.2.1⟩

/-! ## Claim C8 -/

/-- C8: reviews are unique on the `(user, product, order)` triple: inserting a
second review carrying the key of one already present fails with a
duplicate-key error, and the first review remains in the store. -/
theorem review_unique_triple (reviews reviews' : List Review) (r r' : Review)
    (h : insertReview reviews r = .ok reviews')
    (hkey : sameReviewKey r' r = true) :
    insertReview reviews' r' = .error .duplicateKey ∧ r ∈ reviews' := by
  unfold insertReview at h ⊢
  by_cases hany : reviews.any (fun q => sameReviewKey r q) = true
  · simp [hany] at h
  · simp [hany] at h
    subst h
    constructor
    · have hdup : (reviews ++ [r]).any (fun q => sameReviewKey r' q) = true := by
        simp [List.any_append, hkey]
      simp [hdup]
    · simp

theorem review_unique_triple_witness :
    insertReview [approvedReview5] duplicateKeyReview = .error .duplicateKey ∧
    approvedReview5 ∈ [approvedReview5] :=
  review_unique_triple [] [approvedReview5] approvedReview5 duplicateKeyReview
    (by rfl) (by decide)

/-! ## Claim C9 -/

/-- C9: `loginUser` is indistinguishable on its two failure causes: an email
matching no user and an email matching a user whose password fails
verification produce the same structured failure, with the message
`Invalid email or password` and no field errors. -/
theorem login_failures_indistinguishable
    (verify : String → String → Bool) (emailOk : String → Bool)
    (users : List StoredUser) (e1 p1 e2 p2 : String)
    (h1ok : emailOk e1 = true) (h1len : 1 ≤ p1.length)
    (h1none : findByEmail users e1 = none)
    (h2ok : emailOk e2 = true) (h2len : 1 ≤ p2.length)
    (u : StoredUser) (h2some : findByEmail users e2 = some u)
    (h2bad : comparePassword verify u p2 = false) :
    loginUser verify emailOk users e1 p1 = loginUser verify emailOk users e2 p2 ∧
    loginUser verify emailOk users e1 p1
      = { success := false, message := some "Invalid email or password",
          errors := none } := by
  unfold loginUser
  simp [h1ok, h1len, h1none, h2ok, h2len, h2some, h2bad]

theorem login_failures_indistinguishable_witness :
    loginUser demoVerify demoEmailOk [demoUser] "nobody@example.com" "whatever"
      = loginUser demoVerify demoEmailOk [demoUser] "ada@example.com" "wrong" ∧
    loginUser demoVerify demoEmailOk [demoUser] "nobody@example.com" "whatever"
      = { success := false, message := some "Invalid email or password",
          errors := none } :=
  login_failures_indistinguishable demoVerify demoEmailOk [demoUser]
    "nobody@example.com" "whatever" "ada@example.com" "wrong"
    (by decide) (by decide) (by rfl) (by decide) (by decide)
    demoUser (by rfl) (by rfl)

/-! ## Claim C2 -/

/-- C2: the transition operation permits only the diagram edges
pending to processing to shipped to delivered, plus cancellation from a
non-terminal state; every request from a terminal state, and every other
off-diagram request, fails with `InvalidTransitionError` regardless of the
actor's role. -/
theorem transition_legal (o : Order) (t : OrderStatus) (actor : Role) (now : Nat) :
    (∀ o', transition o t actor now = .ok o' →
      ((o.status = .pending ∧ t = .processing) ∨
       (o.status = .processing ∧ t = .shipped) ∨
       (o.status = .shipped ∧ t = .delivered) ∨
       (t = .cancelled ∧ isTerminal o.status = false))) ∧
    (isTerminal o.status = true →
      transition o t actor now = .error .invalidTransition) ∧
    (allowedTransition o.status t = false →
      transition o t actor now = .error .invalidTransition) := by
  refine ⟨?_, ?_, ?_⟩
  · intro o' h
    by_cases ha : allowedTransition o.status t = true
    · cases hs : o.status <;> cases ht : t <;>
        simp_all [allowedTransition, isTerminal]
    · unfold transition at h
      simp [ha] at h
  · intro hterm
    have ha : allowedTransition o.status t = false := by
      cases hs : o.status <;> cases ht : t <;>
        simp_all [allowedTransition, isTerminal]
    unfold transition
    simp [ha]
  · intro ha
    unfold transition
    simp [ha]

theorem transition_legal_witness :
    transition deliveredOrder OrderStatus.processing Role.customer 0
      = .error .invalidTransition :=
  (transition_legal deliveredOrder OrderStatus.processing Role.customer 0).2.1 rfl

end ECommerce
